import Mathlib

/-!
Shallow embedding of the LLM-Translator-Adapter reverse proxy
(`src/main.rs`): a single axum handler `handle_chat` that parses the
inbound body as JSON, rewrites the `model` field to the configured
`default_model`, reads the `stream` flag, builds outbound headers
(`Content-Type: application/json`, `Authorization: Bearer <model_key>`),
forwards the payload with a reqwest client, and relays the upstream
response either buffered (`handle_normal_response`) or as a chunk
stream (`handle_streaming_response`).  Errors are turned into JSON
bodies by `create_error_response`.

Modelling conventions:
- JSON values (`serde_json::Value`) are the inductive `Json`; objects
  are association lists (serde_json's map is keyed uniquely, so
  first-match lookup agrees with map lookup).
- Header collections (`HeaderMap` iteration and `http::response::Builder`)
  are lists of (name, value) pairs; the `http` crate normalises header
  names to lowercase, so names are lowercase strings, and
  `Builder::header` appends (it never replaces), which the list `++`
  reflects.
- Byte payloads are `List Nat`; response bodies distinguish a buffered
  byte body, a serialized JSON document (the error path serializes the
  `serde_json::json!` document), and a chunk stream.
- The network is an explicit parameter: the result of `Client::send` is
  an `Except` value, and a successful upstream response carries both the
  buffered-read outcome and the chunk sequence that `bytes_stream`
  would yield (the handler observes exactly one of them).
-/

/-- JSON values, after `serde_json::Value`.  Numbers are collapsed to
`Int`; none of the verified behavior inspects numeric values. -/
inductive Json where
  | null : Json
  | bool (b : Bool) : Json
  | num (n : Int) : Json
  | str (s : String) : Json
  | arr (xs : List Json) : Json
  | obj (fields : List (String × Json)) : Json

/-- Map lookup on an object's field list (`serde_json::Map::get`). -/
def getField : List (String × Json) → String → Option Json
  | [], _ => none
  | (k', v) :: rest, k => if k' = k then some v else getField rest k

/-- Map insert on an object's field list (`serde_json::Map::insert`):
replaces the value when the key is present, adds the entry otherwise. -/
def insertField : List (String × Json) → String → Json → List (String × Json)
  | [], k, v => [(k, v)]
  | (k', v') :: rest, k, v =>
    if k' = k then (k, v) :: rest else (k', v') :: insertField rest k v

/-- Value lookup, after `serde_json::Value::get`: `None` on non-objects. -/
def Json.get (j : Json) (k : String) : Option Json :=
  match j with
  | .obj fields => getField fields k
  | _ => none

/-- After `serde_json::Value::as_bool`. -/
def Json.asBool (j : Json) : Option Bool :=
  match j with
  | .bool b => some b
  | _ => none

/-- Whether the value is a top-level JSON object (`Value::as_object_mut`
succeeds exactly on these). -/
def Json.isObj (j : Json) : Bool :=
  match j with
  | .obj _ => true
  | _ => false

/-- The model rewrite of `handle_chat` lines 167-170: on an object,
insert `"model" : default_model`; any other value is left untouched
(the `if let Some(obj) = payload.as_object_mut()` falls through). -/
def rewriteModel (j : Json) (default_model : String) : Json :=
  match j with
  | .obj fields => .obj (insertField fields "model" (.str default_model))
  | _ => j

/-- Line 172: `payload.get("stream").and_then(|v| v.as_bool()).unwrap_or(false)`. -/
def isStreamFlag (j : Json) : Bool :=
  ((j.get "stream").bind Json.asBool).getD false

/-- Validity of one byte of an `http::HeaderValue` built by
`HeaderValue::from_str`: visible characters and tab, no controls, no DEL.
Bytes of a multi-byte UTF-8 character are all at least 0x80 and hence
valid, so the check factors through characters. -/
def validHeaderChar (c : Char) : Bool :=
  c.toNat == 9 || (32 ≤ c.toNat && c.toNat != 127)

/-- Whether `HeaderValue::from_str` succeeds on the string. -/
def validHeaderValue (s : String) : Bool :=
  s.data.all validHeaderChar

/-- The application configuration (struct `AppConfig`, lines 19-26).
All five fields are plain (non-`Option`) fields. -/
structure AppConfig where
  model_url : String
  model_key : String
  default_model : String
  port : Nat
  host : String

/-- The derived `Deserialize` of `AppConfig`: deserialization succeeds
only when every one of the five fields is present (none is `Option` and
none carries a serde default). -/
def AppConfig.fromFields (model_url model_key default_model : Option String)
    (port : Option Nat) (host : Option String) : Option AppConfig :=
  match model_url, model_key, default_model, port, host with
  | some u, some k, some d, some p, some h => some ⟨u, k, d, p, h⟩
  | _, _, _, _, _ => none

/-- A successful upstream response as the handler can observe it:
status, headers, the outcome of the buffered `bytes()` read, and the
chunk sequence `bytes_stream()` yields (each chunk either data bytes or
a read error).  The handler consumes exactly one of the two body views. -/
structure UpstreamResp where
  status : Nat
  headers : List (String × String)
  readResult : Except String (List Nat)
  chunks : List (Except String (List Nat))

/-- Body of a response sent back to the caller. -/
inductive RespBody where
  | jsonDoc (j : Json) : RespBody
  | buffered (b : List Nat) : RespBody
  | stream (chunks : List (Except String (List Nat))) : RespBody

/-- A response sent back to the caller. -/
structure HttpResponse where
  status : Nat
  headers : List (String × String)
  body : RespBody

/-- Whether the response relays a chunk stream. -/
def HttpResponse.isStreaming (r : HttpResponse) : Bool :=
  match r.body with
  | .stream _ => true
  | _ => false

/-- The first value carried by a header name in a header list (what a
lookup in the resulting `HeaderMap` returns). -/
def firstValue : List (String × String) → String → Option String
  | [], _ => none
  | (k', v) :: rest, k => if k' = k then some v else firstValue rest k

/-- The JSON document built by `create_error_response` lines 77-82:
an `error` object holding exactly a `type` and a `message` field. -/
def errorJson (error_type message : String) : Json :=
  .obj [("error", .obj [("type", .str error_type), ("message", .str message)])]

/-- Lines 72-89: build the error response with the given status, a
`Content-Type: application/json` header, and the serialized error
document as body. -/
def create_error_response (status : Nat) (error_type message : String) :
    HttpResponse :=
  { status := status
  , headers := [("content-type", "application/json")]
  , body := .jsonDoc (errorJson error_type message) }

/-- The hop-by-hop names excluded on lines 115 and 142 (header names
iterated from a `HeaderMap` are already lowercase). -/
def hopByHop : List String := ["transfer-encoding", "connection"]

/-- The response-header copy loop of lines 114-118 / 141-145: every
upstream header is forwarded except `transfer-encoding` and
`connection`. -/
def copyResponseHeaders (hs : List (String × String)) : List (String × String) :=
  hs.filter (fun kv => !(hopByHop.contains kv.1))

/-- The closure on lines 95-103: a data chunk is forwarded as its bytes
(`bytes.to_vec()`), a stream error becomes an `io::Error` carrying the
same message. -/
def relayChunk (r : Except String (List Nat)) : Except String (List Nat) :=
  match r with
  | .ok bytes => .ok bytes
  | .error e => .error e

/-- Lines 91-121, `handle_streaming_response`: keep the upstream status,
start the header list with `Content-Type: text/event-stream`,
`Cache-Control: no-cache`, `Connection: keep-alive`, then append every
upstream header except the hop-by-hop pair (`Builder::header` appends),
and relay the chunk stream element-wise. -/
def handle_streaming_response (resp : UpstreamResp) : HttpResponse :=
  { status := resp.status
  , headers :=
      [("content-type", "text/event-stream")
      , ("cache-control", "no-cache")
      , ("connection", "keep-alive")]
      ++ copyResponseHeaders resp.headers
  , body := .stream (resp.chunks.map relayChunk) }

/-- Lines 123-148, `handle_normal_response`: read the whole body; a read
failure becomes the 502 `Failed to read response` error; otherwise reply
with the upstream status, the upstream headers minus the hop-by-hop
pair, and the buffered bytes. -/
def handle_normal_response (resp : UpstreamResp) : HttpResponse :=
  match resp.readResult with
  | .error e => create_error_response 502 "Failed to read response" e
  | .ok bytes =>
    { status := resp.status
    , headers := copyResponseHeaders resp.headers
    , body := .buffered bytes }

/-- Lines 175-191: the outbound header map holds exactly
`Content-Type: application/json` and `Authorization: Bearer <model_key>`
(caller headers are never consulted); building it fails exactly when the
bearer string is not a valid header value. -/
def build_outbound_headers (cfg : AppConfig) :
    Except Unit (List (String × String)) :=
  if validHeaderValue ("Bearer " ++ cfg.model_key) then
    .ok [("content-type", "application/json")
        , ("authorization", "Bearer " ++ cfg.model_key)]
  else
    .error ()

/-- Lines 150-219, `handle_chat`.  The bytes-to-JSON parse outcome of
`serde_json::from_slice` is the `parsed` parameter (`none` models a body
that is not valid JSON), and the transport outcome of `send().await` is
the `sendResult` parameter.  The second component of the result is the
payload forwarded upstream (`.json(&payload)` re-serializes it), `none`
when the handler returned before dispatching the request. -/
def handle_chat (cfg : AppConfig) (parsed : Option Json)
    (sendResult : Except String UpstreamResp) :
    HttpResponse × Option Json :=
  match parsed with
  | none =>
    (create_error_response 400 "Invalid request body"
        "Could not parse request body as JSON", none)
  | some payload0 =>
    let payload := rewriteModel payload0 cfg.default_model
    let is_stream := isStreamFlag payload
    match build_outbound_headers cfg with
    | .error _ =>
      (create_error_response 500 "Invalid configuration"
          "Failed to create authorization header", none)
    | .ok _ =>
      match sendResult with
      | .error e =>
        (create_error_response 502 "Failed to forward request" e, some payload)
      | .ok resp =>
        ((if is_stream then handle_streaming_response resp
          else handle_normal_response resp), some payload)

/-! Helper lemmas about the embedded operations. -/

theorem getField_insertField_self (fs : List (String × Json)) (k : String) (v : Json) :
    getField (insertField fs k v) k = some v := by
  induction fs with
  | nil => simp [insertField, getField]
  | cons kv rest ih =>
    obtain ⟨k1, v1⟩ := kv
    by_cases h : k1 = k
    · subst h
      simp [insertField, getField]
    · simp [insertField, getField, h, ih]

theorem getField_insertField_ne (fs : List (String × Json)) (k0 k : String) (v : Json)
    (h : k ≠ k0) : getField (insertField fs k0 v) k = getField fs k := by
  induction fs with
  | nil => simp [insertField, getField, Ne.symm h]
  | cons kv rest ih =>
    obtain ⟨k1, v1⟩ := kv
    by_cases h1 : k1 = k0
    · subst h1
      simp [insertField, getField, Ne.symm h]
    · by_cases h2 : k1 = k
      · subst h2
        simp [insertField, getField, h1]
      · simp [insertField, getField, h1, h2, ih]

theorem get_rewriteModel_ne (j : Json) (m : String) (k : String) (h : k ≠ "model") :
    (rewriteModel j m).get k = j.get k := by
  cases j <;> simp [rewriteModel, Json.get]
  exact getField_insertField_ne _ _ _ _ h

theorem isStreamFlag_eq_true_iff (j : Json) :
    isStreamFlag j = true ↔ j.get "stream" = some (Json.bool true) := by
  unfold isStreamFlag
  cases h : j.get "stream" with
  | none => simp
  | some v => cases v <;> simp [Json.asBool]

theorem rewriteModel_nonobject (j : Json) (m : String) (h : j.isObj = false) :
    rewriteModel j m = j := by
  cases j <;> simp_all [Json.isObj, rewriteModel]

theorem validHeaderValue_bearer (k : String) :
    validHeaderValue ("Bearer " ++ k) = validHeaderValue k := by
  have hdata : ("Bearer " ++ k).data = "Bearer ".data ++ k.data := rfl
  simp only [validHeaderValue, hdata, List.all_append]
  have hpre : "Bearer ".data.all validHeaderChar = true := by decide
  rw [hpre, Bool.true_and]

theorem mem_copyResponseHeaders (hs : List (String × String)) (kv : String × String) :
    kv ∈ copyResponseHeaders hs ↔ kv ∈ hs ∧ ¬ kv.1 ∈ hopByHop := by
  simp [copyResponseHeaders, List.mem_filter]

theorem isStreaming_dispatch (resp : UpstreamResp) (b : Bool) :
    (if b then handle_streaming_response resp else handle_normal_response resp).isStreaming
      = b := by
  cases b with
  | true => simp [handle_streaming_response, HttpResponse.isStreaming]
  | false =>
    cases h : resp.readResult <;>
      simp [handle_normal_response, h, HttpResponse.isStreaming, create_error_response]

/-! Concrete fixtures used to instantiate theorems with hypotheses. -/

/-- A well-formed configuration (its credential is a valid header value). -/
def cfgEx : AppConfig :=
  ⟨"http://upstream.local/v1/chat/completions", "sk-key", "local-llm", 8080, "127.0.0.1"⟩

/-- A configuration whose credential holds a control character and hence
cannot be encoded as a header value. -/
def cfgBad : AppConfig :=
  ⟨"http://upstream.local/v1/chat/completions", "bad\nkey", "local-llm", 8080, "127.0.0.1"⟩

/-- A successful upstream response with a readable buffered body. -/
def respEx : UpstreamResp :=
  ⟨200, [("content-type", "application/json"), ("x-request-id", "abc")],
    .ok [123, 125], [.ok [100]]⟩

/-- An upstream response whose buffered body read fails. -/
def respBad : UpstreamResp :=
  ⟨200, [("content-type", "application/json")], .error "read interrupted", []⟩

/-- C1: when the inbound body parses as a top-level JSON object, the
payload forwarded upstream has its `model` field equal to the configured
`default_model`, every other field is looked up unchanged from the
original object, and any field present in the forwarded payload is
either `model` or was present originally (exactly one field replaced,
none removed, none added). -/
theorem model_field_rewrite_exact (cfg : AppConfig) (fields : List (String × Json))
    (send : Except String UpstreamResp) (p : Json)
    (hfwd : (handle_chat cfg (some (Json.obj fields)) send).2 = some p) :
    p.get "model" = some (Json.str cfg.default_model)
    ∧ (∀ k, k ≠ "model" → p.get k = getField fields k)
    ∧ (∀ k v, p.get k = some v → k = "model" ∨ getField fields k ≠ none) := by
  have hp : p = rewriteModel (Json.obj fields) cfg.default_model := by
    unfold handle_chat at hfwd
    cases hb : build_outbound_headers cfg with
    | error u => simp [hb] at hfwd
    | ok hs =>
      cases send with
      | error e =>
        simp [hb] at hfwd
        exact hfwd.symm
      | ok resp =>
        simp [hb] at hfwd
        exact hfwd.symm
  subst hp
  refine ⟨getField_insertField_self _ _ _, ?_, ?_⟩
  · intro k hk
    exact getField_insertField_ne _ _ _ _ hk
  · intro k v hv
    by_cases hk : k = "model"
    · exact Or.inl hk
    · refine Or.inr ?_
      rw [show (rewriteModel (Json.obj fields) cfg.default_model).get k
            = getField fields k from getField_insertField_ne _ _ _ _ hk] at hv
      simp [hv]

/-- Witness for C1 at a concrete object body, configuration and
transport outcome. -/
theorem model_field_rewrite_exact_witness :
    Json.get (Json.obj [("model", Json.str "local-llm"), ("stream", Json.bool false)])
        "model" = some (Json.str cfgEx.default_model) :=
  (model_field_rewrite_exact cfgEx
    [("model", Json.str "gpt-4"), ("stream", Json.bool false)]
    (Except.error "connection refused")
    (Json.obj [("model", Json.str "local-llm"), ("stream", Json.bool false)]) rfl).1

/-- C8: a finite upstream chunk sequence of N data chunks is relayed as
exactly the same N chunks, byte-identical and in the same order, and the
outbound stream ends with the upstream sequence. -/
theorem streaming_relays_chunks_exactly (status : Nat) (hs : List (String × String))
    (rr : Except String (List Nat)) (chunks : List (List Nat)) :
    (handle_streaming_response ⟨status, hs, rr, chunks.map Except.ok⟩).body
      = RespBody.stream (chunks.map Except.ok) := by
  unfold handle_streaming_response
  simp only [List.map_map]
  have h : (relayChunk ∘ Except.ok) = (Except.ok : List Nat → Except String (List Nat)) := by
    funext c
    rfl
  rw [h]

/-- C10 counterexample: configuration deserialization with
`default_model` absent fails (the field is required), so `default_model`
is not an optional option with a pass-through fallback. -/
theorem default_model_absence_fails_config :
    AppConfig.fromFields (some "http://upstream.local") (some "sk-key") none
      (some 8080) (some "0.0.0.0") = none := rfl

/-- C10 amended: `default_model` is a required configuration field —
loading fails whenever it is absent, whatever the other fields hold —
and when configuration does load, every top-level JSON object body has
its `model` field rewritten to the configured value (there is no
pass-through mode). -/
theorem default_model_required_always_rewrites :
    (∀ u k p h, AppConfig.fromFields u k none p h = none)
    ∧ (∀ cfg : AppConfig, ∀ fields,
        Json.get (rewriteModel (Json.obj fields) cfg.default_model) "model"
          = some (Json.str cfg.default_model)) := by
  constructor
  · intro u k p h
    cases u <;> cases k <;> cases p <;> cases h <;> rfl
  · intro cfg fields
    exact getField_insertField_self _ _ _

/-- C5 counterexample: in the connection-refused scenario the error body
is the two-field document `{"error":{"type":..,"message":..}}`; its
`error` object carries no `code` and no `details` field, so the claimed
four-field shape does not hold. -/
theorem error_body_missing_code_details :
    (handle_chat cfgEx (some (Json.obj [])) (Except.error "connection refused")).1.body
      = RespBody.jsonDoc (errorJson "Failed to forward request" "connection refused")
    ∧ ((errorJson "Failed to forward request" "connection refused").get "error").bind
        (fun e => e.get "code") = none
    ∧ ((errorJson "Failed to forward request" "connection refused").get "error").bind
        (fun e => e.get "details") = none :=
  ⟨rfl, rfl, rfl⟩

/-- C5 amended: every error response carries the requested status, a
`content-type: application/json` header, and the JSON document
`{"error":{"type": <type>, "message": <message>}}`: the top level has
exactly the `error` field, whose object carries exactly a `type` and a
`message` field — in particular no `code` and no `details` field. -/
theorem error_response_fixed_shape (status : Nat) (etype msg : String) :
    (create_error_response status etype msg).status = status
    ∧ (create_error_response status etype msg).headers
        = [("content-type", "application/json")]
    ∧ (create_error_response status etype msg).body = .jsonDoc (errorJson etype msg)
    ∧ (∀ k, (errorJson etype msg).get k ≠ none ↔ k = "error")
    ∧ ((errorJson etype msg).get "error").bind (fun e => e.get "type")
        = some (Json.str etype)
    ∧ ((errorJson etype msg).get "error").bind (fun e => e.get "message")
        = some (Json.str msg)
    ∧ (∀ k, ((errorJson etype msg).get "error").bind (fun e => e.get k) ≠ none
        → k = "type" ∨ k = "message") := by
  refine ⟨rfl, rfl, rfl, ?_, rfl, rfl, ?_⟩
  · intro k
    constructor
    · intro hk
      by_contra hne
      apply hk
      simp [errorJson, Json.get, getField, Ne.symm hne]
    · intro hk
      subst hk
      simp [errorJson, Json.get, getField]
  · intro k hk
    by_cases h1 : k = "type"
    · exact Or.inl h1
    · refine Or.inr ?_
      by_contra h2
      apply hk
      simp [errorJson, Json.get, getField, Ne.symm h1, Ne.symm h2]

/-- Witness for C5's amended theorem at a concrete error response. -/
theorem error_response_fixed_shape_witness :
    ((errorJson "proxy_error" "Failed to forward request").get "error").bind
        (fun e => e.get "type") = some (Json.str "proxy_error") :=
  (error_response_fixed_shape 502 "proxy_error" "Failed to forward request").2.2.2.2.1

/-- C3 counterexample: the body `[1]` is valid JSON whose top-level
value is not an object; the handler does not answer 400 — it forwards
the payload upstream (here the transport fails, so the caller sees the
502 forwarding error) and the forwarded payload is the array itself. -/
theorem nonobject_body_forwarded_not_rejected :
    (handle_chat cfgEx (some (Json.arr [Json.num 1])) (Except.error "refused")).1.status
        = 502
    ∧ (handle_chat cfgEx (some (Json.arr [Json.num 1])) (Except.error "refused")).2
        = some (Json.arr [Json.num 1]) :=
  ⟨rfl, rfl⟩

/-- C3 amended: only a body that fails to parse as JSON at all yields
the 400 response with the structured error body and no upstream
dispatch; a body whose top-level JSON value is not an object is not
rejected — it is forwarded to the upstream unchanged (the model rewrite
falls through), whenever the credential encodes as a header value. -/
theorem only_invalid_json_yields_400 :
    (∀ cfg send, handle_chat cfg none send
        = (create_error_response 400 "Invalid request body"
            "Could not parse request body as JSON", none))
    ∧ (∀ cfg (j : Json) send, j.isObj = false
        → validHeaderValue cfg.model_key = true
        → (handle_chat cfg (some j) send).2 = some j) := by
  constructor
  · intro cfg send
    rfl
  · intro cfg j send hobj hkey
    have hb : build_outbound_headers cfg
        = .ok [("content-type", "application/json")
              , ("authorization", "Bearer " ++ cfg.model_key)] := by
      unfold build_outbound_headers
      rw [validHeaderValue_bearer, hkey]
      rfl
    cases send with
    | error e =>
      unfold handle_chat
      simp [hb, rewriteModel_nonobject j cfg.default_model hobj]
    | ok resp =>
      unfold handle_chat
      simp [hb, rewriteModel_nonobject j cfg.default_model hobj]

/-- Witness for C3's amended theorem: a string body is forwarded as is. -/
theorem only_invalid_json_yields_400_witness :
    (handle_chat cfgEx (some (Json.str "hi")) (Except.error "refused")).2
      = some (Json.str "hi") :=
  only_invalid_json_yields_400.2 cfgEx (Json.str "hi") (Except.error "refused") rfl rfl

/-- C4: when the buffered upstream body is fully read, the caller sees
the upstream status and the upstream bytes, and a header pair is in the
caller response exactly when it is an upstream header pair whose name is
neither `transfer-encoding` nor `connection`. -/
theorem buffered_relay_preserves_status_headers (resp : UpstreamResp)
    (bytes : List Nat) (hread : resp.readResult = Except.ok bytes) :
    (handle_normal_response resp).status = resp.status
    ∧ (handle_normal_response resp).body = RespBody.buffered bytes
    ∧ ∀ kv, kv ∈ (handle_normal_response resp).headers
        ↔ (kv ∈ resp.headers ∧ ¬ kv.1 ∈ hopByHop) := by
  unfold handle_normal_response
  rw [hread]
  exact ⟨rfl, rfl, fun kv => mem_copyResponseHeaders resp.headers kv⟩

/-- Witness for C4 at a concrete readable upstream response. -/
theorem buffered_relay_preserves_status_headers_witness :
    (handle_normal_response respEx).status = respEx.status :=
  (buffered_relay_preserves_status_headers respEx [123, 125] rfl).1

/-- C6: the status codes of the failure paths — unparsable inbound body
gives 400, a credential that cannot be encoded as a header value gives
500, a transport failure gives 502, and a failed buffered body read
gives 502. -/
theorem error_status_code_mapping :
    (∀ cfg send, (handle_chat cfg none send).1.status = 400)
    ∧ (∀ cfg (j : Json) send, validHeaderValue cfg.model_key = false
        → (handle_chat cfg (some j) send).1.status = 500)
    ∧ (∀ cfg (j : Json) e, validHeaderValue cfg.model_key = true
        → (handle_chat cfg (some j) (Except.error e)).1.status = 502)
    ∧ (∀ resp e, resp.readResult = Except.error e
        → (handle_normal_response resp).status = 502) := by
  refine ⟨fun cfg send => rfl, ?_, ?_, ?_⟩
  · intro cfg j send hkey
    have hb : build_outbound_headers cfg = .error () := by
      unfold build_outbound_headers
      rw [validHeaderValue_bearer, hkey]
      rfl
    unfold handle_chat
    simp [hb, create_error_response]
  · intro cfg j e hkey
    have hb : build_outbound_headers cfg
        = .ok [("content-type", "application/json")
              , ("authorization", "Bearer " ++ cfg.model_key)] := by
      unfold build_outbound_headers
      rw [validHeaderValue_bearer, hkey]
      rfl
    unfold handle_chat
    simp [hb, create_error_response]
  · intro resp e hread
    unfold handle_normal_response
    rw [hread]
    rfl

/-- Witness for C6, one concrete request per failure path. -/
theorem error_status_code_mapping_witness :
    (handle_chat cfgEx none (Except.error "x")).1.status = 400
    ∧ (handle_chat cfgBad (some (Json.obj [])) (Except.error "x")).1.status = 500
    ∧ (handle_chat cfgEx (some (Json.obj [])) (Except.error "refused")).1.status = 502
    ∧ (handle_normal_response respBad).status = 502 :=
  ⟨error_status_code_mapping.1 cfgEx (Except.error "x"),
   error_status_code_mapping.2.1 cfgBad (Json.obj []) (Except.error "x") rfl,
   error_status_code_mapping.2.2.1 cfgEx (Json.obj []) "refused" rfl,
   error_status_code_mapping.2.2.2 respBad "read interrupted" rfl⟩

/-- C2: once the request reaches the relay (credential encodes, upstream
reachable), the response is a chunk stream exactly when the inbound
payload's `stream` field is the boolean `true` — a missing or
non-boolean value yields the buffered path — and the decision does not
depend on the upstream response. -/
theorem stream_decision_from_inbound_flag (cfg : AppConfig) (j : Json)
    (resp : UpstreamResp) (hkey : validHeaderValue cfg.model_key = true) :
    ((handle_chat cfg (some j) (Except.ok resp)).1.isStreaming = true
        ↔ j.get "stream" = some (Json.bool true))
    ∧ (∀ resp2, (handle_chat cfg (some j) (Except.ok resp)).1.isStreaming
        = (handle_chat cfg (some j) (Except.ok resp2)).1.isStreaming) := by
  have hb : build_outbound_headers cfg
      = .ok [("content-type", "application/json")
            , ("authorization", "Bearer " ++ cfg.model_key)] := by
    unfold build_outbound_headers
    rw [validHeaderValue_bearer, hkey]
    rfl
  have hstream : ∀ r : UpstreamResp,
      (handle_chat cfg (some j) (Except.ok r)).1.isStreaming
        = isStreamFlag (rewriteModel j cfg.default_model) := by
    intro r
    unfold handle_chat
    rw [hb]
    exact isStreaming_dispatch r _
  have hflag : isStreamFlag (rewriteModel j cfg.default_model) = isStreamFlag j := by
    unfold isStreamFlag
    rw [get_rewriteModel_ne j cfg.default_model "stream" (by decide)]
  constructor
  · rw [hstream resp, hflag]
    exact isStreamFlag_eq_true_iff j
  · intro resp2
    rw [hstream resp, hstream resp2]

/-- Witness for C2: a payload with `stream: true` is relayed as a
stream. -/
theorem stream_decision_from_inbound_flag_witness :
    (handle_chat cfgEx (some (Json.obj [("stream", Json.bool true)]))
        (Except.ok respEx)).1.isStreaming = true :=
  (stream_decision_from_inbound_flag cfgEx (Json.obj [("stream", Json.bool true)])
    respEx rfl).1.mpr rfl

/-- C7 counterexample: the streaming relay does not override an upstream
`Content-Type` — the upstream value `application/json` is still present
among the caller-visible headers (it is appended after the injected
`text/event-stream` one, since the response builder appends). -/
theorem upstream_content_type_retained :
    ("content-type", "application/json")
      ∈ (handle_streaming_response
          ⟨200, [("content-type", "application/json")], Except.ok [], []⟩).headers := by
  simp [handle_streaming_response, copyResponseHeaders, hopByHop]

/-- C7 amended: streaming responses carry `text/event-stream` as the
first `Content-Type` value, plus `Cache-Control: no-cache` and
`Connection: keep-alive`; upstream `Connection` values are dropped, but
every other upstream header — including an upstream `Content-Type` — is
appended after the injected ones rather than overridden. -/
theorem streaming_header_injection (resp : UpstreamResp) :
    firstValue (handle_streaming_response resp).headers "content-type"
        = some "text/event-stream"
    ∧ ("cache-control", "no-cache") ∈ (handle_streaming_response resp).headers
    ∧ ("connection", "keep-alive") ∈ (handle_streaming_response resp).headers
    ∧ (∀ v, ("connection", v) ∈ (handle_streaming_response resp).headers
        → v = "keep-alive")
    ∧ (∀ kv : String × String, kv ∈ resp.headers → ¬ kv.1 ∈ hopByHop
        → kv ∈ (handle_streaming_response resp).headers) := by
  refine ⟨rfl, ?_, ?_, ?_, ?_⟩
  · simp [handle_streaming_response]
  · simp [handle_streaming_response]
  · intro v hv
    unfold handle_streaming_response at hv
    rcases List.mem_append.mp hv with h1 | h2
    · simpa using h1
    · exfalso
      have hm := (mem_copyResponseHeaders resp.headers ("connection", v)).mp h2
      exact hm.2 (by simp [hopByHop])
  · intro kv hmem hhop
    unfold handle_streaming_response
    exact List.mem_append_right _ ((mem_copyResponseHeaders _ _).mpr ⟨hmem, hhop⟩)

/-- Witness for C7's amended theorem at a concrete upstream response. -/
theorem streaming_header_injection_witness :
    firstValue (handle_streaming_response respEx).headers "content-type"
      = some "text/event-stream" :=
  (streaming_header_injection respEx).1

/-- C9: whenever the outbound header map is built it holds
`Content-Type: application/json` and `Authorization: Bearer <model_key>`
(caller-supplied values are never consulted, so these are the values for
those keys), and building fails — routing the request to the 500
configuration error — exactly when the configured credential is not a
valid header value. -/
theorem outbound_headers_fixed (cfg : AppConfig) :
    (∀ hs, build_outbound_headers cfg = Except.ok hs
        → ("content-type", "application/json") ∈ hs
          ∧ ("authorization", "Bearer " ++ cfg.model_key) ∈ hs)
    ∧ (build_outbound_headers cfg = Except.error ()
        ↔ validHeaderValue cfg.model_key = false)
    ∧ (∀ (j : Json) send, build_outbound_headers cfg = Except.error ()
        → (handle_chat cfg (some j) send).1
            = create_error_response 500 "Invalid configuration"
                "Failed to create authorization header") := by
  refine ⟨?_, ?_, ?_⟩
  · intro hs hok
    unfold build_outbound_headers at hok
    split at hok
    · simp only [Except.ok.injEq] at hok
      subst hok
      exact ⟨by simp, by simp⟩
    · simp at hok
  · constructor
    · intro herr
      unfold build_outbound_headers at herr
      split at herr
      · simp at herr
      · rename_i hv
        rw [validHeaderValue_bearer] at hv
        simpa using hv
    · intro hfalse
      have hv : validHeaderValue ("Bearer " ++ cfg.model_key) = false := by
        rw [validHeaderValue_bearer]
        exact hfalse
      unfold build_outbound_headers
      rw [hv]
      rfl
  · intro j send herr
    unfold handle_chat
    rw [herr]

/-- Witness for C9 at a well-formed configuration. -/
theorem outbound_headers_fixed_witness :
    ("content-type", "application/json")
        ∈ [("content-type", "application/json"), ("authorization", "Bearer sk-key")]
    ∧ ("authorization", "Bearer " ++ cfgEx.model_key)
        ∈ [("content-type", "application/json"), ("authorization", "Bearer sk-key")] :=
  (outbound_headers_fixed cfgEx).1 _ rfl
